import Mathlib

/-!
Shallow embedding of `src/commands/config.rs` from the `nova` configuration
registry. The program manages a store of configuration records (filename,
shorthand alias, text content) behind five subcommands: `list`, `clone`,
`vim` (edit-reconciliation), `add` and `remove`.

Modelling choices:
- The diesel-backed table becomes a `List Config`; queries become the
  corresponding list operations (`find?`, `filter`, `map`).
- The file system becomes an association list from path to content.
- Every fallible external step (database query, file write/read/remove,
  editor spawn/wait) is driven by an explicit environment record whose
  fields say whether that step succeeds or fails, and with which error
  string; `Child::wait` returns `Except String Int` mirroring
  `io::Result<ExitStatus>` (the `Int` is the exit status, which the source
  discards with `Ok(_)`).
- Each command returns the new world state together with the list of lines
  it printed, in order.
- The `.unwrap()` in `list` is modelled by an `Option` result where `none`
  is the process panic.
-/

namespace Nova

/-- A configuration record: the sole entity of the store
(`models::Config`). -/
structure Config where
  filename : String
  shorthand : String
  content : String
deriving DecidableEq, Repr

/-- The file system: an association list from path to file content. -/
abbrev FS := List (String × String)

/-- Read a file: `std::fs::read_to_string` when the file exists. -/
def fsRead (fs : FS) (p : String) : Option String :=
  (fs.find? (fun q => q.1 == p)).map (fun q => q.2)

/-- Write a file, creating or truncating it: `std::fs::write`. -/
def fsWrite (fs : FS) (p c : String) : FS :=
  (p, c) :: fs.eraseP (fun q => q.1 == p)

/-- Remove a file: `std::fs::remove_file`. -/
def fsRemove (fs : FS) (p : String) : FS :=
  fs.eraseP (fun q => q.1 == p)

/-- The world a command acts on: the record store and the file system. -/
structure St where
  store : List Config
  fs : FS
deriving DecidableEq, Repr

/-- `configs.filter(filename.eq(f)).first::<Config>` — lookup by primary
key. -/
def findByFilename (store : List Config) (f : String) : Option Config :=
  store.find? (fun c => c.filename == f)

/-- `configs.filter(shorthand.eq(s)).first::<Config>` — lookup by alias. -/
def findByShorthand (store : List Config) (s : String) : Option Config :=
  store.find? (fun c => c.shorthand == s)

/-- `configs.filter(filename.eq(f)).count() != 0` — the existence check
`add` runs before inserting. -/
def existsByFilename (store : List Config) (f : String) : Bool :=
  (store.filter (fun c => c.filename == f)).length != 0

/-- `configs.filter(shorthand.eq(s)).count() != 0`. -/
def existsByShorthand (store : List Config) (s : String) : Bool :=
  (store.filter (fun c => c.shorthand == s)).length != 0

/-- `diesel::update(configs).filter(filename.eq(f)).set(content.eq(c))` —
replaces the content of every row whose filename matches. -/
def updateContent (store : List Config) (f c : String) : List Config :=
  store.map (fun r => if r.filename == f then { r with content := c } else r)

/-- Outcomes of the store load in `list`: `none` on query failure. -/
structure ListEnv where
  loadErr : Option String

/-- The `list` subcommand. The source calls `.unwrap()` on the load result,
so a store failure aborts the whole process: modelled as `none` (panic).
On success it prints one table row (shorthand, filename, content length)
per record. -/
def list (env : ListEnv) (st : St) : Option (List (String × String × Nat)) :=
  match env.loadErr with
  | some _ => none
  | none => some (st.store.map (fun c => (c.shorthand, c.filename, c.content.length)))

/-- Outcomes of the per-file write in `clone`, keyed by target filename. -/
structure CloneEnv where
  writeErr : String → Option String

/-- One iteration of the `clone` loop body: look up the alias, then write
the content to a file named by the record's filename. -/
def cloneOne (env : CloneEnv) (st : St) (shorthand : String) : St × List String :=
  match findByShorthand st.store shorthand with
  | none => (st, ["Unknown config shorthand: " ++ shorthand])
  | some config =>
    match env.writeErr config.filename with
    | some err => (st, ["Unable to write file: " ++ config.filename, "Error: " ++ err])
    | none =>
      ({ st with fs := fsWrite st.fs config.filename config.content },
       ["Wrote to file: " ++ config.filename])

/-- The `clone` subcommand: the `for shorthand in &context.args` loop. -/
def clone (env : CloneEnv) (st : St) (args : List String) : St × List String :=
  match args with
  | [] => (st, [])
  | shorthand :: rest =>
    let r := cloneOne env st shorthand
    let r2 := clone env r.1 rest
    (r2.1, r.2 ++ r2.2)

/-- Outcomes of the external steps of the `vim` workflow. `waitResult`
carries the editor's exit status on `Ok`, as `Child::wait` does;
`editorOutput` is the temp-file content the editor leaves behind
(`none` if the editor deleted the file). -/
structure VimEnv where
  writeTempErr : Option String
  spawnErr : Option String
  waitResult : Except String Int
  editorOutput : Option String
  readTempErr : Option String
  removeTempErr : Option String
  updateErr : Option String

/-- The `vim` subcommand: the edit-reconciliation workflow. Stages the
record's content to `filename ++ ".temp"`, runs the editor, reads the temp
file back, removes it, and writes the content to the store only when it
differs from the stored content. -/
def vim (env : VimEnv) (st : St) (args : List String) : St × List String :=
  match args.head? with
  | none => (st, ["Please provide a filename"])
  | some filename =>
    match findByFilename st.store filename with
    | none => (st, ["Unknown config filename: " ++ filename])
    | some config =>
      let path := config.filename ++ ".temp"
      match env.writeTempErr with
      | some err => (st, ["Unable to temp file: " ++ config.filename, "Error: " ++ err])
      | none =>
        let fs1 := fsWrite st.fs path config.content
        match env.spawnErr with
        | some err => ({ st with fs := fs1 }, ["Failed to run editor", "Error: " ++ err])
        | none =>
          let fs2 := match env.editorOutput with
            | some s => fsWrite fs1 path s
            | none => fsRemove fs1 path
          match env.waitResult with
          | .error err =>
            ({ st with fs := fs2 }, ["Editor returned a non-zero status", "Error: " ++ err])
          | .ok _ =>
            let readRes : Except String String :=
              match env.readTempErr with
              | some err => .error err
              | none =>
                match fsRead fs2 path with
                | some c => .ok c
                | none => .error "No such file or directory (os error 2)"
            match readRes with
            | .error err =>
              ({ st with fs := fs2 },
               ["Unable to read temp file: " ++ config.filename, "Error: " ++ err])
            | .ok content =>
              match env.removeTempErr with
              | some err =>
                ({ st with fs := fs2 },
                 ["Unable to remove temp file: " ++ config.filename, "Error: " ++ err])
              | none =>
                let fs3 := fsRemove fs2 path
                if content == config.content then
                  ({ st with fs := fs3 }, ["No changes made to file: " ++ config.filename])
                else
                  match env.updateErr with
                  | some err =>
                    ({ st with fs := fs3 },
                     ["Unable to update config: " ++ config.filename, "Error: " ++ err])
                  | none =>
                    ({ store := updateContent st.store filename content, fs := fs3 },
                     ["Updated config: " ++ config.filename])

/-- Outcomes of the two count queries and the insert in `add`. -/
structure AddEnv where
  countFilenameErr : Option String
  countShorthandErr : Option String
  insertErr : Option String

/-- The `add` subcommand: read the named file (falling back to empty
content), check filename uniqueness, check shorthand uniqueness, then
insert. -/
def add (env : AddEnv) (st : St) (args : List String) : St × List String :=
  match args.head? with
  | none => (st, ["Please provide a filename, then a shorthand"])
  | some filename =>
    match args[1]? with
    | none => (st, ["Please provide a shorthand"])
    | some shorthand =>
      let read := match fsRead st.fs filename with
        | some content => (content, ([] : List String))
        | none => ("", ["Could not read file data: " ++ filename])
      let content := read.1
      let msgs0 := read.2
      match env.countFilenameErr with
      | some err => (st, msgs0 ++ ["Unable to fetch configs", "Error: " ++ err])
      | none =>
        if (st.store.filter (fun c => c.filename == filename)).length != 0 then
          (st, msgs0 ++ ["Filename already exists"])
        else
          match env.countShorthandErr with
          | some err => (st, msgs0 ++ ["Unable to fetch configs", "Error: " ++ err])
          | none =>
            if (st.store.filter (fun c => c.shorthand == shorthand)).length != 0 then
              (st, msgs0 ++ ["Shorthand already exists"])
            else
              let config : Config :=
                { filename := filename, shorthand := shorthand, content := content }
              match env.insertErr with
              | some err =>
                (st, msgs0 ++ ["Unable to store new config: " ++ filename ++ " (" ++ shorthand ++ ")",
                               "Error: " ++ err])
              | none =>
                ({ st with store := st.store ++ [config] },
                 msgs0 ++ ["Config created: " ++ filename ++ " (" ++ shorthand ++ ")"])

/-- Outcome of the delete query in `remove`. -/
structure RemoveEnv where
  deleteErr : Option String

/-- The `remove` subcommand: `diesel::delete(configs).filter(filename.eq(f))`
returns the number of rows deleted; zero deletions print the unknown-filename
message, never an error. -/
def remove (env : RemoveEnv) (st : St) (args : List String) : St × List String :=
  match args.head? with
  | none => (st, ["Please provide a filename"])
  | some filename =>
    match env.deleteErr with
    | some err => (st, ["Unable to delete config", "Error: " ++ err])
    | none =>
      let remaining := st.store.filter (fun c => !(c.filename == filename))
      let deleted := st.store.length - remaining.length
      if deleted == 0 then
        ({ st with store := remaining }, ["Unknown config filename: " ++ filename])
      else
        ({ st with store := remaining }, ["Config removed: " ++ filename])

/-- Reading back a path just written yields the written content. -/
theorem fsRead_fsWrite_self (fs : FS) (p c : String) :
    fsRead (fsWrite fs p c) p = some c := by
  simp [fsRead, fsWrite]

/-- `updateContent` never changes any record's filename or shorthand. -/
theorem updateContent_map_keys (store : List Config) (f c : String) :
    (updateContent store f c).map (fun r => (r.filename, r.shorthand))
      = store.map (fun r => (r.filename, r.shorthand)) := by
  simp only [updateContent, List.map_map]
  apply List.map_congr_left
  intro r _
  by_cases h : r.filename = f <;> simp [h]

/-- A record whose filename differs from the updated key survives
`updateContent` untouched. -/
theorem mem_updateContent_of_ne (store : List Config) (f c : String)
    (r : Config) (hr : r ∈ store) (hne : ¬ r.filename = f) :
    r ∈ updateContent store f c := by
  unfold updateContent
  refine List.mem_map.mpr ⟨r, hr, ?_⟩
  simp [hne]

/-- Claim C5: the source's `match child.wait()` treats any `Ok(_)` as
success, discarding the exit status; an editor that exits abnormally with
status 1 does NOT abort the workflow — the temp file is still read and the
changed content is persisted. This run evaluates `vim` at exit status 1
with edited content "new" over stored content "old" and shows the store is
updated and success is reported, contradicting the claim that an abnormal
exit aborts at the wait stage. -/
theorem vim_ignores_abnormal_exit_status :
    vim { writeTempErr := none, spawnErr := none, waitResult := Except.ok 1,
          editorOutput := some "new", readTempErr := none, removeTempErr := none,
          updateErr := none }
        { store := [{ filename := "a.conf", shorthand := "a", content := "old" }], fs := [] }
        ["a.conf"]
      = ({ store := [{ filename := "a.conf", shorthand := "a", content := "new" }], fs := [] },
         ["Updated config: " ++ "a.conf"]) := by
  decide

/-- Claim C10: the `list` subcommand calls `.unwrap()` on the store load,
so any store read failure aborts the whole process (modelled as `none`)
instead of being reported as an error. -/
theorem list_load_failure_panics (st : St) (e : String) :
    list { loadErr := some e } st = none := rfl

/-- Claim C1: when a record with the given filename is stored and every
external step succeeds, and the editor leaves content in the temp file that
differs from the stored content, the edit workflow replaces that record's
`content` with exactly the content read back from the temp file, reports
success exactly once, and leaves every record's `filename` and `shorthand`
(and every other record entirely) unchanged. -/
theorem vim_changed_edit
    (env : VimEnv) (st : St) (filename newContent : String) (config : Config)
    (hfind : findByFilename st.store filename = some config)
    (hw : env.writeTempErr = none)
    (hs : env.spawnErr = none)
    (hwait : ∃ code, env.waitResult = Except.ok code)
    (hed : env.editorOutput = some newContent)
    (hr : env.readTempErr = none)
    (hrm : env.removeTempErr = none)
    (hu : env.updateErr = none)
    (hne : ¬ newContent = config.content) :
    (vim env st [filename]).1.store = updateContent st.store filename newContent
    ∧ (vim env st [filename]).2 = ["Updated config: " ++ config.filename]
    ∧ (vim env st [filename]).2.count ("Updated config: " ++ config.filename) = 1
    ∧ (∀ c ∈ st.store, ¬ c.filename = filename → c ∈ (vim env st [filename]).1.store)
    ∧ (vim env st [filename]).1.store.map (fun r => (r.filename, r.shorthand))
        = st.store.map (fun r => (r.filename, r.shorthand)) := by
  obtain ⟨code, hcode⟩ := hwait
  obtain ⟨wt, sp, wa, ed, rd, rm, up⟩ := env
  simp only at hw hs hcode hed hr hrm hu
  subst hw hs hcode hed hr hrm hu
  have hrun : vim
      { writeTempErr := none, spawnErr := none, waitResult := Except.ok code,
        editorOutput := some newContent, readTempErr := none, removeTempErr := none,
        updateErr := none } st [filename]
      = ({ store := updateContent st.store filename newContent,
           fs := fsRemove (fsWrite (fsWrite st.fs (config.filename ++ ".temp") config.content)
                   (config.filename ++ ".temp") newContent) (config.filename ++ ".temp") },
         ["Updated config: " ++ config.filename]) := by
    simp [vim, hfind, fsRead_fsWrite_self, hne]
  refine ⟨by rw [hrun], by rw [hrun], by rw [hrun]; simp, ?_, by rw [hrun]; exact updateContent_map_keys st.store filename newContent⟩
  intro c hc hcne
  rw [hrun]
  exact mem_updateContent_of_ne st.store filename newContent c hc hcne

/-- Closed instance of the changed-edit theorem: a two-record store, the
editor rewrites `a.conf`'s content from "old" to "new"; the store holds the
new content, success is reported once, and the other record is intact. -/
theorem vim_changed_edit_witness :
    (vim { writeTempErr := none, spawnErr := none, waitResult := Except.ok 0,
           editorOutput := some "new", readTempErr := none, removeTempErr := none,
           updateErr := none }
         { store := [{ filename := "a.conf", shorthand := "a", content := "old" },
                     { filename := "b.conf", shorthand := "b", content := "B" }], fs := [] }
         ["a.conf"]).1.store
      = updateContent [{ filename := "a.conf", shorthand := "a", content := "old" },
                       { filename := "b.conf", shorthand := "b", content := "B" }] "a.conf" "new"
    ∧ (vim { writeTempErr := none, spawnErr := none, waitResult := Except.ok 0,
             editorOutput := some "new", readTempErr := none, removeTempErr := none,
             updateErr := none }
           { store := [{ filename := "a.conf", shorthand := "a", content := "old" },
                       { filename := "b.conf", shorthand := "b", content := "B" }], fs := [] }
           ["a.conf"]).2
      = ["Updated config: " ++ "a.conf"] := by
  have h := vim_changed_edit
    { writeTempErr := none, spawnErr := none, waitResult := Except.ok 0,
      editorOutput := some "new", readTempErr := none, removeTempErr := none,
      updateErr := none }
    { store := [{ filename := "a.conf", shorthand := "a", content := "old" },
                { filename := "b.conf", shorthand := "b", content := "B" }], fs := [] }
    "a.conf" "new" { filename := "a.conf", shorthand := "a", content := "old" }
    rfl rfl rfl ⟨0, rfl⟩ rfl rfl rfl rfl (by decide)
  exact ⟨h.1, h.2.1⟩

/-- Claim C2: when every external step succeeds and the content read back
from the temp file equals the stored content, the workflow reports
"no changes", leaves the store unchanged, and performs no store write at
all — the run's outcome does not depend on the update step's environment,
because the update is never attempted. -/
theorem vim_noop_edit
    (env : VimEnv) (st : St) (filename : String) (config : Config)
    (hfind : findByFilename st.store filename = some config)
    (hw : env.writeTempErr = none)
    (hs : env.spawnErr = none)
    (hwait : ∃ code, env.waitResult = Except.ok code)
    (hed : env.editorOutput = some config.content)
    (hr : env.readTempErr = none)
    (hrm : env.removeTempErr = none) :
    (vim env st [filename]).1.store = st.store
    ∧ (vim env st [filename]).2 = ["No changes made to file: " ++ config.filename]
    ∧ ∀ u : Option String,
        vim { env with updateErr := u } st [filename] = vim env st [filename] := by
  obtain ⟨code, hcode⟩ := hwait
  obtain ⟨wt, sp, wa, ed, rd, rm, up⟩ := env
  simp only at hw hs hcode hed hr hrm
  subst hw hs hcode hed hr hrm
  refine ⟨?_, ?_, ?_⟩ <;>
    simp [vim, hfind, fsRead_fsWrite_self]

/-- Closed instance of the no-op edit theorem: the editor saves the file
unchanged; the store keeps "old" and "no changes" is reported. -/
theorem vim_noop_edit_witness :
    (vim { writeTempErr := none, spawnErr := none, waitResult := Except.ok 0,
           editorOutput := some "old", readTempErr := none, removeTempErr := none,
           updateErr := none }
         { store := [{ filename := "a.conf", shorthand := "a", content := "old" }], fs := [] }
         ["a.conf"]).1.store
      = [{ filename := "a.conf", shorthand := "a", content := "old" }]
    ∧ (vim { writeTempErr := none, spawnErr := none, waitResult := Except.ok 0,
             editorOutput := some "old", readTempErr := none, removeTempErr := none,
             updateErr := none }
           { store := [{ filename := "a.conf", shorthand := "a", content := "old" }], fs := [] }
           ["a.conf"]).2
      = ["No changes made to file: " ++ "a.conf"] := by
  have h := vim_noop_edit
    { writeTempErr := none, spawnErr := none, waitResult := Except.ok 0,
      editorOutput := some "old", readTempErr := none, removeTempErr := none,
      updateErr := none }
    { store := [{ filename := "a.conf", shorthand := "a", content := "old" }], fs := [] }
    "a.conf" { filename := "a.conf", shorthand := "a", content := "old" }
    rfl rfl rfl ⟨0, rfl⟩ rfl rfl rfl
  exact ⟨h.1, h.2.1⟩

/-- Claim C3: when the store queries succeed, an `add` whose filename is
already stored — or whose filename is fresh but whose shorthand is already
stored — leaves the whole world unchanged and reports the conflict; the
outcome is independent of the insert step's environment because both
uniqueness checks run before any insert is attempted. -/
theorem add_conflict
    (env : AddEnv) (st : St) (filename shorthand : String)
    (hcf : env.countFilenameErr = none)
    (hcs : env.countShorthandErr = none) :
    (existsByFilename st.store filename = true →
       (add env st [filename, shorthand]).1 = st
       ∧ (add env st [filename, shorthand]).2.getLast? = some "Filename already exists"
       ∧ ∀ i : Option String,
           add { env with insertErr := i } st [filename, shorthand]
             = add env st [filename, shorthand])
    ∧ (existsByFilename st.store filename = false →
       existsByShorthand st.store shorthand = true →
       (add env st [filename, shorthand]).1 = st
       ∧ (add env st [filename, shorthand]).2.getLast? = some "Shorthand already exists"
       ∧ ∀ i : Option String,
           add { env with insertErr := i } st [filename, shorthand]
             = add env st [filename, shorthand]) := by
  obtain ⟨cf, cs, ins⟩ := env
  simp only at hcf hcs
  subst hcf hcs
  constructor
  · intro hf
    simp only [existsByFilename] at hf
    cases hread : fsRead st.fs filename <;>
      simp [add, hread, hf]
  · intro hf hs
    simp only [existsByFilename] at hf
    simp only [existsByShorthand] at hs
    cases hread : fsRead st.fs filename <;>
      simp [add, hread, hf, hs]

/-- Closed instance of the conflict theorem: adding `a.conf` when a record
with filename `a.conf` is stored leaves the store unchanged and reports
the filename conflict. -/
theorem add_conflict_witness :
    (add { countFilenameErr := none, countShorthandErr := none, insertErr := none }
         { store := [{ filename := "a.conf", shorthand := "a", content := "X" }], fs := [] }
         ["a.conf", "b"]).1
      = { store := [{ filename := "a.conf", shorthand := "a", content := "X" }], fs := [] }
    ∧ (add { countFilenameErr := none, countShorthandErr := none, insertErr := none }
           { store := [{ filename := "a.conf", shorthand := "a", content := "X" }], fs := [] }
           ["a.conf", "b"]).2.getLast?
      = some "Filename already exists" := by
  have h := (add_conflict
    { countFilenameErr := none, countShorthandErr := none, insertErr := none }
    { store := [{ filename := "a.conf", shorthand := "a", content := "X" }], fs := [] }
    "a.conf" "b" rfl rfl).1 (by decide)
  exact ⟨h.1, h.2.1⟩

/-- Claim C7: an `add` whose source file cannot be read, with both keys
fresh and all store operations succeeding, still succeeds: it reports the
soft read failure, then inserts a record with empty content and reports
creation. -/
theorem add_unreadable_soft
    (env : AddEnv) (st : St) (filename shorthand : String)
    (hread : fsRead st.fs filename = none)
    (hf : existsByFilename st.store filename = false)
    (hsh : existsByShorthand st.store shorthand = false)
    (hcf : env.countFilenameErr = none)
    (hcs : env.countShorthandErr = none)
    (hins : env.insertErr = none) :
    add env st [filename, shorthand] =
      ({ st with store := st.store
           ++ [{ filename := filename, shorthand := shorthand, content := "" }] },
       ["Could not read file data: " ++ filename,
        "Config created: " ++ filename ++ " (" ++ shorthand ++ ")"]) := by
  obtain ⟨cf, cs, ins⟩ := env
  simp only at hcf hcs hins
  subst hcf hcs hins
  simp only [existsByFilename] at hf
  simp only [existsByShorthand] at hsh
  simp [add, hread, hf, hsh]

/-- Closed instance of the soft-failure theorem: adding `missing.conf`
with an empty file system creates a record with empty content. -/
theorem add_unreadable_soft_witness :
    add { countFilenameErr := none, countShorthandErr := none, insertErr := none }
        { store := [], fs := [] } ["missing.conf", "m"]
      = ({ store := [{ filename := "missing.conf", shorthand := "m", content := "" }], fs := [] },
         ["Could not read file data: " ++ "missing.conf",
          "Config created: " ++ "missing.conf" ++ " (" ++ "m" ++ ")"]) :=
  add_unreadable_soft
    { countFilenameErr := none, countShorthandErr := none, insertErr := none }
    { store := [], fs := [] } "missing.conf" "m" rfl rfl rfl rfl rfl rfl

/-- Claim C4 (amended): if reading the temp file back fails, the workflow
aborts without mutating the store, reporting the read failure, and the
temp file (named filename ++ ".temp") remains on disk with the editor's
content; but this is not the only abort path that leaves the temp file
behind — a spawn failure after the temp file is written also leaves it
on disk with the staged content. -/
theorem vim_read_fail_leaves_temp
    (env : VimEnv) (st : St) (filename out err : String) (config : Config)
    (hfind : findByFilename st.store filename = some config)
    (hw : env.writeTempErr = none)
    (hs : env.spawnErr = none)
    (hwait : ∃ code, env.waitResult = Except.ok code)
    (hed : env.editorOutput = some out)
    (hr : env.readTempErr = some err) :
    (vim env st [filename]).1.store = st.store
    ∧ (vim env st [filename]).2
        = ["Unable to read temp file: " ++ config.filename, "Error: " ++ err]
    ∧ fsRead (vim env st [filename]).1.fs (config.filename ++ ".temp") = some out
    ∧ ∀ (env' : VimEnv) (e : String), env'.writeTempErr = none → env'.spawnErr = some e →
        (vim env' st [filename]).1.store = st.store
        ∧ fsRead (vim env' st [filename]).1.fs (config.filename ++ ".temp")
            = some config.content := by
  obtain ⟨code, hcode⟩ := hwait
  obtain ⟨wt, sp, wa, ed, rd, rm, up⟩ := env
  simp only at hw hs hcode hed hr
  subst hw hs hcode hed hr
  refine ⟨?_, ?_, ?_, ?_⟩
  · simp [vim, hfind]
  · simp [vim, hfind]
  · simp [vim, hfind, fsRead_fsWrite_self]
  · intro env' e hw' hs'
    obtain ⟨wt', sp', wa', ed', rd', rm', up'⟩ := env'
    simp only at hw' hs'
    subst hw' hs'
    constructor
    · simp [vim, hfind]
    · simp [vim, hfind, fsRead_fsWrite_self]

/-- Closed instance of the read-failure theorem: the read fails with
"permission denied"; the store keeps "old" and the temp file still holds
the editor's output "new". -/
theorem vim_read_fail_leaves_temp_witness :
    (vim { writeTempErr := none, spawnErr := none, waitResult := Except.ok 0,
           editorOutput := some "new", readTempErr := some "permission denied",
           removeTempErr := none, updateErr := none }
         { store := [{ filename := "a.conf", shorthand := "a", content := "old" }], fs := [] }
         ["a.conf"]).1.store
      = [{ filename := "a.conf", shorthand := "a", content := "old" }]
    ∧ fsRead (vim { writeTempErr := none, spawnErr := none, waitResult := Except.ok 0,
                    editorOutput := some "new", readTempErr := some "permission denied",
                    removeTempErr := none, updateErr := none }
                  { store := [{ filename := "a.conf", shorthand := "a", content := "old" }],
                    fs := [] }
                  ["a.conf"]).1.fs ("a.conf" ++ ".temp")
      = some "new" := by
  have h := vim_read_fail_leaves_temp
    { writeTempErr := none, spawnErr := none, waitResult := Except.ok 0,
      editorOutput := some "new", readTempErr := some "permission denied",
      removeTempErr := none, updateErr := none }
    { store := [{ filename := "a.conf", shorthand := "a", content := "old" }], fs := [] }
    "a.conf" "new" "permission denied"
    { filename := "a.conf", shorthand := "a", content := "old" }
    rfl rfl rfl ⟨0, rfl⟩ rfl rfl
  exact ⟨h.1, h.2.2.1⟩

/-- Claim C4 counterexample: the read-temp failure is NOT the only abort
path that leaves the temp file behind. Here the editor fails to spawn
(the temp-file read never fails: `readTempErr` is `none`), the workflow
aborts at the spawn stage, and the temp file `a.conf.temp` is left on
disk with the staged content. -/
theorem vim_spawn_fail_leaves_temp :
    vim { writeTempErr := none, spawnErr := some "spawn failed",
          waitResult := Except.ok 0, editorOutput := some "old",
          readTempErr := none, removeTempErr := none, updateErr := none }
        { store := [{ filename := "a.conf", shorthand := "a", content := "old" }], fs := [] }
        ["a.conf"]
      = ({ store := [{ filename := "a.conf", shorthand := "a", content := "old" }],
           fs := [("a.conf.temp", "old")] },
         ["Failed to run editor", "Error: " ++ "spawn failed"]) := by
  decide

/-- Claim C6: clone processes each alias independently. An unknown alias
is reported and the remaining aliases are still processed; a failed file
write for one alias is reported and does not abort processing of the
rest; and in general, running clone on `a :: rest` is the run on `a`
followed by the run on `rest` from the resulting state, whatever `a`'s
outcome. -/
theorem clone_per_alias_isolation
    (env₁ env₂ : CloneEnv) (st : St) (known unknown err : String) (kc : Config)
    (h1 : findByShorthand st.store unknown = none)
    (h2 : findByShorthand st.store known = some kc)
    (h3 : env₁.writeErr kc.filename = none)
    (h4 : env₂.writeErr kc.filename = some err) :
    clone env₁ st [unknown, known] =
      ({ st with fs := fsWrite st.fs kc.filename kc.content },
       ["Unknown config shorthand: " ++ unknown, "Wrote to file: " ++ kc.filename])
    ∧ clone env₂ st [known, unknown] =
      (st, ["Unable to write file: " ++ kc.filename, "Error: " ++ err,
            "Unknown config shorthand: " ++ unknown])
    ∧ ∀ (env : CloneEnv) (s : St) (a : String) (rest : List String),
        clone env s (a :: rest) =
          ((clone env (cloneOne env s a).1 rest).1,
           (cloneOne env s a).2 ++ (clone env (cloneOne env s a).1 rest).2) := by
  refine ⟨?_, ?_, fun env s a rest => rfl⟩
  · simp [clone, cloneOne, h1, h2, h3]
  · simp [clone, cloneOne, h1, h2, h4]

/-- Closed instance of the clone-isolation theorem: with `a` stored and
`u` unknown, `clone ["u", "a"]` reports the unknown alias and still
writes `a.conf`; `clone ["a", "u"]` under a failing disk write reports
the write error and still reports the unknown alias. -/
theorem clone_per_alias_isolation_witness :
    clone { writeErr := fun _ => none }
        { store := [{ filename := "a.conf", shorthand := "a", content := "X" }], fs := [] }
        ["u", "a"]
      = ({ store := [{ filename := "a.conf", shorthand := "a", content := "X" }],
           fs := fsWrite [] "a.conf" "X" },
         ["Unknown config shorthand: " ++ "u", "Wrote to file: " ++ "a.conf"])
    ∧ clone { writeErr := fun _ => some "disk full" }
        { store := [{ filename := "a.conf", shorthand := "a", content := "X" }], fs := [] }
        ["a", "u"]
      = ({ store := [{ filename := "a.conf", shorthand := "a", content := "X" }], fs := [] },
         ["Unable to write file: " ++ "a.conf", "Error: " ++ "disk full",
          "Unknown config shorthand: " ++ "u"]) := by
  have h := clone_per_alias_isolation
    { writeErr := fun _ => none } { writeErr := fun _ => some "disk full" }
    { store := [{ filename := "a.conf", shorthand := "a", content := "X" }], fs := [] }
    "a" "u" "disk full" { filename := "a.conf", shorthand := "a", content := "X" }
    rfl rfl rfl rfl
  exact ⟨h.1, h.2.1⟩

/-- Claim C8: when the delete query succeeds, removing a filename that
matches no record reports the unknown filename (zero deletions) and is
not an error, leaving the world unchanged; and removing the same filename
twice in a row is safe — the second run deletes nothing, reports the
unknown filename, and leaves the state exactly as after the first run. -/
theorem remove_idempotent
    (env : RemoveEnv) (st : St) (filename : String)
    (hdel : env.deleteErr = none) :
    (findByFilename st.store filename = none →
       remove env st [filename] = (st, ["Unknown config filename: " ++ filename]))
    ∧ (remove env (remove env st [filename]).1 [filename]).1
        = (remove env st [filename]).1
    ∧ (remove env (remove env st [filename]).1 [filename]).2
        = ["Unknown config filename: " ++ filename] := by
  obtain ⟨de⟩ := env
  simp only at hdel
  subst hdel
  have hff : (st.store.filter (fun c => !(c.filename == filename))).filter
        (fun c => !(c.filename == filename))
      = st.store.filter (fun c => !(c.filename == filename)) := by
    rw [List.filter_filter]
    simp
  have h1 : (remove { deleteErr := none } st [filename]).1
      = { st with store := st.store.filter (fun c => !(c.filename == filename)) } := by
    simp only [remove, List.head?_cons]
    rw [apply_ite Prod.fst, ite_self]
  refine ⟨?_, ?_, ?_⟩
  · intro hnone
    unfold findByFilename at hnone
    have hall := List.find?_eq_none.mp hnone
    have hfil : st.store.filter (fun c => !(c.filename == filename)) = st.store :=
      List.filter_eq_self.mpr (fun a ha => by simp [hall a ha])
    simp [remove, hfil]
  · rw [h1]
    simp [remove, hff]
  · rw [h1]
    simp [remove, hff]

/-- Closed instance of the idempotent-removal theorem: removing `b.conf`
from a store that only holds `a.conf` reports the unknown filename and
changes nothing. -/
theorem remove_idempotent_witness :
    remove { deleteErr := none }
        { store := [{ filename := "a.conf", shorthand := "a", content := "X" }], fs := [] }
        ["b.conf"]
      = ({ store := [{ filename := "a.conf", shorthand := "a", content := "X" }], fs := [] },
         ["Unknown config filename: " ++ "b.conf"]) :=
  (remove_idempotent { deleteErr := none }
    { store := [{ filename := "a.conf", shorthand := "a", content := "X" }], fs := [] }
    "b.conf" rfl).1 (by decide)

/-- Claim C9: starting from an empty store with a file `a.conf` of content
`x` in the working directory, `add "a.conf" "a"` followed by `clone "a"`
leaves a file named `a.conf` with content `x` in the working directory and
reports the write — the add/clone pair round-trips the file content. -/
theorem add_clone_round_trip
    (envA : AddEnv) (envC : CloneEnv) (fs : FS) (x : String)
    (hread : fsRead fs "a.conf" = some x)
    (hcf : envA.countFilenameErr = none)
    (hcs : envA.countShorthandErr = none)
    (hins : envA.insertErr = none)
    (hw : envC.writeErr "a.conf" = none) :
    fsRead (clone envC (add envA { store := [], fs := fs } ["a.conf", "a"]).1 ["a"]).1.fs
        "a.conf" = some x
    ∧ (clone envC (add envA { store := [], fs := fs } ["a.conf", "a"]).1 ["a"]).2
      = ["Wrote to file: " ++ "a.conf"] := by
  obtain ⟨cf, cs, ins⟩ := envA
  simp only at hcf hcs hins
  subst hcf hcs hins
  have hadd : add { countFilenameErr := none, countShorthandErr := none, insertErr := none }
      { store := [], fs := fs } ["a.conf", "a"]
      = ({ store := [{ filename := "a.conf", shorthand := "a", content := x }], fs := fs },
         ["Config created: " ++ "a.conf" ++ " (" ++ "a" ++ ")"]) := by
    simp [add, hread]
  rw [hadd]
  constructor
  · simp [clone, cloneOne, findByShorthand, hw, fsRead_fsWrite_self]
  · simp [clone, cloneOne, findByShorthand, hw]

/-- Closed instance of the round-trip theorem: the file system holds
`a.conf` with content "X"; after `add` then `clone`, reading `a.conf`
still yields "X". -/
theorem add_clone_round_trip_witness :
    fsRead (clone { writeErr := fun _ => none }
        (add { countFilenameErr := none, countShorthandErr := none, insertErr := none }
            { store := [], fs := [("a.conf", "X")] } ["a.conf", "a"]).1 ["a"]).1.fs
        "a.conf" = some "X" :=
  (add_clone_round_trip
    { countFilenameErr := none, countShorthandErr := none, insertErr := none }
    { writeErr := fun _ => none } [("a.conf", "X")] "X" rfl rfl rfl rfl rfl).1

end Nova
